import Mathlib

/-!
Shallow embedding of `src/camera_server/camera_stream_api.py` (the camera
abstraction and streaming service of Radu1999/face_auth).

The module-level mutable globals `CAMERA_SOURCE`, `opencv_camera` and
`libcamera_camera` become an explicit `ServerState` that every operation
threads. The physical devices (cv2.VideoCapture, picamera2.Picamera2) and
the JPEG encoder are modelled as behaviour oracles (`OcvDevice`,
`LibDevice`, `Encoder`): each records what the external library would
return at each call, so the embedded functions are deterministic and
executable. Operations additionally emit an `Event` trace recording which
device calls (open, release/close, read/capture) were made on which
handle, so that claims about closing and about reads on failed handles are
observable.
-/

namespace CameraServer

/-- One pixel as a channel triple. For the tuned-sensor (libcamera) source
the native order is (R, G, B); the direct-device (OpenCV) order is
(B, G, R). -/
abbrev Pixel := Nat × Nat × Nat

/-- A raw frame is its list of pixels; the zero-sized frame is `[]`. -/
abbrev RawFrame := List Pixel

/-- Embeds Python `str.lower()` (the strings involved are ASCII): lowers
each character of the string. -/
def pyLower (s : String) : String := ⟨s.data.map Char.toLower⟩

/-- A `cv2.VideoCapture` object. `opened` is what `isOpened()` returns;
`release()` turns it off. `id` identifies the object so the trace can tell
distinct captures apart. -/
structure OcvHandle where
  id : Nat
  opened : Bool
deriving Repr, DecidableEq

/-- A `picamera2.Picamera2` object. `working` is true when `configure` and
`start` succeeded and `close()` has not been called; `capture_array` raises
on a non-working object. -/
structure LibHandle where
  id : Nat
  working : Bool
deriving Repr, DecidableEq

/-- The module globals of `camera_stream_api.py`: `CAMERA_SOURCE` (line 20,
mutated only by `switch_camera`), `opencv_camera` and `libcamera_camera`
(lines 27-28). `nextId` is the fresh-identity supply for newly constructed
device objects. -/
structure ServerState where
  cameraSource : String
  opencv_camera : Option OcvHandle
  libcamera_camera : Option LibHandle
  nextId : Nat
deriving Repr, DecidableEq

/-- Device-library calls made by the server, recorded as a trace. -/
inductive Event
  | ocvOpen (id : Nat) (ok : Bool)
  | ocvRelease (id : Nat)
  | ocvRead (id : Nat)
  | libOpen (id : Nat) (ok : Bool)
  | libClose (id : Nat)
  | libCapture (id : Nat)
deriving Repr, DecidableEq

/-- Outcome of constructing `cv2.VideoCapture(OPENCV_DEVICE)`: the
constructor raises (caught at line 40), or it yields an object whose
`isOpened()` is `ok`. -/
inductive OcvOpenBehavior
  | ctorFails
  | opens (ok : Bool)
deriving Repr, DecidableEq

/-- Behaviour oracle for the direct-device (OpenCV) camera: how opening
goes, and what the k-th `read()` on an opened capture returns (`none` is
`success == False`). -/
structure OcvDevice where
  openBeh : OcvOpenBehavior
  read : Nat → Option RawFrame

/-- Outcome of `init_libcamera` against the picamera2 library:
`importErr` is `ImportError` on `from picamera2 import ...` (line 72,
before the global is assigned); `failBeforeAssign` is an exception in
`load_tuning_file`/the constructor (also before assignment);
`failAfterAssign` is an exception in `configure`/`start` (line 75, after
`libcamera_camera` was assigned at line 51); `startOk` is success. -/
inductive LibInitBehavior
  | importErr
  | failBeforeAssign
  | failAfterAssign
  | startOk
deriving Repr, DecidableEq

/-- Outcome of one `capture_array()` call on a working camera: it raises,
returns `None`, or returns a frame (possibly zero-sized). -/
inductive CaptureResult
  | capRaises
  | capNone
  | capFrame (f : RawFrame)
deriving Repr, DecidableEq

/-- Behaviour oracle for the tuned-sensor (libcamera) camera. -/
structure LibDevice where
  initBeh : LibInitBehavior
  capture : Nat → CaptureResult

/-- Result of an init function: new state, the returned Bool, trace. -/
structure InitOut where
  state : ServerState
  ok : Bool
  events : List Event
deriving Repr

/-- Embeds `init_opencv_camera` (lines 30-42): assigns the global
`opencv_camera` to the freshly constructed capture BEFORE checking
`isOpened()`, so a capture that is not opened is still recorded; returns
`False` on not-opened or on a constructor exception (global untouched in
the latter case only). -/
def init_opencv_camera (d : OcvDevice) (s : ServerState) : InitOut :=
  match d.openBeh with
  | .ctorFails => ⟨s, false, []⟩
  | .opens ok =>
      ⟨{ s with opencv_camera := some ⟨s.nextId, ok⟩, nextId := s.nextId + 1 },
        ok, [.ocvOpen s.nextId ok]⟩

/-- Embeds `init_libcamera` (lines 44-77): on `ImportError` or an
exception before the assignment at line 51 the global is untouched; on a
`configure`/`start` exception the global keeps the non-working object;
on success the global holds a working object. Returns `True` only on
success. -/
def init_libcamera (d : LibDevice) (s : ServerState) : InitOut :=
  match d.initBeh with
  | .importErr => ⟨s, false, []⟩
  | .failBeforeAssign => ⟨s, false, []⟩
  | .failAfterAssign =>
      ⟨{ s with libcamera_camera := some ⟨s.nextId, false⟩, nextId := s.nextId + 1 },
        false, [.libOpen s.nextId false]⟩
  | .startOk =>
      ⟨{ s with libcamera_camera := some ⟨s.nextId, true⟩, nextId := s.nextId + 1 },
        true, [.libOpen s.nextId true]⟩

/-- Result of a frame-retrieval function: the frame (or `None`), trace. -/
structure FrameOut where
  frame : Option RawFrame
  events : List Event
deriving Repr

/-- Embeds `get_frame_opencv` (lines 79-89): returns `None` when the
global is `None`; otherwise calls `read()` on the stored capture (the
trace records the call even on a capture that never opened); `read()` on a
non-opened capture yields `success == False`, hence `None`. `k` indexes
which device read this call observes. -/
def get_frame_opencv (d : OcvDevice) (s : ServerState) (k : Nat) : FrameOut :=
  match s.opencv_camera with
  | none => ⟨none, []⟩
  | some h => ⟨if h.opened then d.read k else none, [.ocvRead h.id]⟩

/-- Embeds `cv2.cvtColor(frame, cv2.COLOR_RGB2BGR)` (line 104): each
pixel's channel triple is reversed. -/
def rgb2bgr (f : RawFrame) : RawFrame := f.map fun p => (p.2.2, p.2.1, p.1)

/-- Embeds `get_frame_libcamera` (lines 91-108): `None` when the global is
`None`; otherwise `capture_array()` is attempted (it raises on a
non-working object, caught at line 106); a `None` or zero-sized result
gives `None`; a real frame is converted RGB to BGR and returned. -/
def get_frame_libcamera (d : LibDevice) (s : ServerState) (k : Nat) : FrameOut :=
  match s.libcamera_camera with
  | none => ⟨none, []⟩
  | some h =>
      if h.working then
        match d.capture k with
        | .capRaises => ⟨none, [.libCapture h.id]⟩
        | .capNone => ⟨none, [.libCapture h.id]⟩
        | .capFrame f =>
            if f = [] then ⟨none, [.libCapture h.id]⟩
            else ⟨some (rgb2bgr f), [.libCapture h.id]⟩
      else ⟨none, [.libCapture h.id]⟩

/-- Embeds `get_frame` (lines 110-115): dispatches on the CAMERA_SOURCE
label, lowercased — everything other than "libcamera" goes to the OpenCV
path. -/
def get_frame (dO : OcvDevice) (dL : LibDevice) (s : ServerState) (k : Nat) :
    FrameOut :=
  if pyLower s.cameraSource = "libcamera" then get_frame_libcamera dL s k
  else get_frame_opencv dO s k

/-- Result of a lifecycle hook: new state and trace. -/
structure HookOut where
  state : ServerState
  events : List Event
deriving Repr

/-- Embeds `startup_event` (lines 144-156): if the configured source is
"libcamera" (lowercased), try `init_libcamera` and on failure fall back to
`init_opencv_camera`; otherwise just `init_opencv_camera`. `CAMERA_SOURCE`
is never reassigned here, in particular not on fallback. -/
def startup_event (dO : OcvDevice) (dL : LibDevice) (s : ServerState) : HookOut :=
  if pyLower s.cameraSource = "libcamera" then
    let r := init_libcamera dL s
    if r.ok then ⟨r.state, r.events⟩
    else
      let r2 := init_opencv_camera dO r.state
      ⟨r2.state, r.events ++ r2.events⟩
  else
    let r := init_opencv_camera dO s
    ⟨r.state, r.events⟩

/-- Embeds `shutdown_event` (lines 158-169): `release()` the OpenCV
capture if the global is not `None`, `close()` the libcamera object if not
`None`. Neither global is reassigned to `None`; the (now closed) objects
stay recorded. -/
def shutdown_event (s : ServerState) : HookOut :=
  let ocvPart : Option OcvHandle × List Event :=
    match s.opencv_camera with
    | none => (none, [])
    | some h => (some { h with opened := false }, [.ocvRelease h.id])
  let libPart : Option LibHandle × List Event :=
    match s.libcamera_camera with
    | none => (none, [])
    | some h => (some { h with working := false }, [.libClose h.id])
  ⟨{ s with opencv_camera := ocvPart.1, libcamera_camera := libPart.1 },
    ocvPart.2 ++ libPart.2⟩

/-- Response of the `/health` endpoint. -/
structure HealthResp where
  status : String
  camera_source : String
  camera_working : Bool
deriving Repr, DecidableEq

/-- Embeds `health_check` (lines 181-194): `camera_working` is decided by
an if/elif chain — label "opencv" checks the OpenCV capture and its
`isOpened()`, label "libcamera" checks only that the libcamera global is
not `None`, and ANY other label leaves `camera_working` at `False`. -/
def health_check (s : ServerState) : HealthResp :=
  let camera_working :=
    if pyLower s.cameraSource = "opencv" then
      match s.opencv_camera with
      | none => false
      | some h => h.opened
    else if pyLower s.cameraSource = "libcamera" then
      s.libcamera_camera.isSome
    else false
  ⟨if camera_working then "healthy" else "unhealthy", s.cameraSource,
    camera_working⟩

/-- Response of `/switch_camera`: a structured validation error, or the
switch report with its success flag and the new `CAMERA_SOURCE` label. -/
inductive SwitchResp
  | invalidSource
  | switched (success : Bool) (camera_source : String)
deriving Repr, DecidableEq

/-- Result of `switch_camera`: new state, response, trace. -/
structure SwitchOut where
  state : ServerState
  resp : SwitchResp
  events : List Event
deriving Repr

/-- Embeds the clean-up phase of `switch_camera` (lines 239-242): release
the OpenCV capture only when the CURRENT label (lowercased) is "opencv"
and the global is not `None`; else close the libcamera object only when
the current label is "libcamera" and its global is not `None`; any other
combination closes nothing. -/
def closeCurrent (s : ServerState) : ServerState × List Event :=
  if pyLower s.cameraSource = "opencv" then
    match s.opencv_camera with
    | some h =>
        ({ s with opencv_camera := some { h with opened := false } },
          [.ocvRelease h.id])
    | none => (s, [])
  else if pyLower s.cameraSource = "libcamera" then
    match s.libcamera_camera with
    | some h =>
        ({ s with libcamera_camera := some { h with working := false } },
          [.libClose h.id])
    | none => (s, [])
  else (s, [])

/-- Embeds `switch_camera` (lines 230-261): validate that the lowercased
requested source is one of the two kinds (else a structured error and no
state change); clean up the handle of the currently labelled kind; set
`CAMERA_SOURCE` to the lowercased request; run the matching init; report
success and the new label. -/
def switch_camera (dO : OcvDevice) (dL : LibDevice) (source : String)
    (s : ServerState) : SwitchOut :=
  if pyLower source = "opencv" ∨ pyLower source = "libcamera" then
    let cc := closeCurrent s
    let s2 := { cc.1 with cameraSource := pyLower source }
    let r :=
      if s2.cameraSource = "libcamera" then init_libcamera dL s2
      else init_opencv_camera dO s2
    ⟨r.state, .switched r.ok s2.cameraSource, cc.2 ++ r.events⟩
  else
    ⟨s, .invalidSource, []⟩

/-- Outcome of `cv2.imencode` on one frame: `ret == False`, an exception
(caught at line 139), or success with the encoded JPEG bytes. -/
inductive EncodeResult
  | encFails
  | encRaises
  | encOk (bytes : List Nat)
deriving Repr, DecidableEq

/-- Behaviour oracle for the JPEG encoder at quality 80. -/
abbrev Encoder := RawFrame → EncodeResult

/-- ASCII bytes of a string literal. -/
def asciiBytes (s : String) : List Nat := s.data.map Char.toNat

/-- The multipart part header emitted at lines 137-138. -/
def partHeader : List Nat :=
  asciiBytes "--frame\r\nContent-Type: image/jpeg\r\n\r\n"

/-- The CRLF terminator of each part. -/
def crlf : List Nat := asciiBytes "\r\n"

/-- What one iteration of the `gen_frames` loop produces: a yielded
multipart chunk, or a `time.sleep(0.1)` backoff followed by `continue`. -/
inductive GenOut
  | chunk (bytes : List Nat)
  | backoff
deriving Repr, DecidableEq

/-- True on a yielded chunk. -/
def GenOut.isChunk : GenOut → Bool
  | .chunk _ => true
  | .backoff => false

/-- Embeds one iteration of the `gen_frames` loop (lines 117-142): a
failed `get_frame` or a failed/raising encode sleeps the fixed 0.1 s
backoff and retries; a successful encode yields the framed chunk
`--frame CRLF Content-Type: image/jpeg CRLF CRLF <bytes> CRLF`. The loop
is `while True` with no retry cap: iteration `k` is always defined. -/
def genStep (dO : OcvDevice) (dL : LibDevice) (enc : Encoder)
    (s : ServerState) (k : Nat) : GenOut :=
  match (get_frame dO dL s k).frame with
  | none => .backoff
  | some f =>
      match enc f with
      | .encFails => .backoff
      | .encRaises => .backoff
      | .encOk b => .chunk (partHeader ++ b ++ crlf)

/-- The first `N` outputs of the generator. -/
def genOuts (dO : OcvDevice) (dL : LibDevice) (enc : Encoder)
    (s : ServerState) (N : Nat) : List GenOut :=
  (List.range N).map (genStep dO dL enc s)

/-- Decides whether `p` occurs as a contiguous byte run inside `l`. -/
def hasByteRun (p : List Nat) : List Nat → Bool
  | [] => p.isEmpty
  | a :: l => p.isPrefixOf (a :: l) || hasByteRun p l

/-- The observable part of the server state, as the spec exposes it:
the `CAMERA_SOURCE` label and, per backend kind, whether a working
(opened / started) object is held. Handle identities (which concrete
device object is stored) are not observable. -/
def obs (s : ServerState) : String × Option Bool × Option Bool :=
  (s.cameraSource, s.opencv_camera.map OcvHandle.opened,
    s.libcamera_camera.map LibHandle.working)

/-! ### Concrete device fixtures used by witnesses and counterexamples -/

/-- An OpenCV device that opens and always reads the frame [(1,2,3)]. -/
def okOcv : OcvDevice := ⟨.opens true, fun _ => some [(1, 2, 3)]⟩

/-- An OpenCV device whose capture opens but every read fails. -/
def noReadOcv : OcvDevice := ⟨.opens true, fun _ => none⟩

/-- An OpenCV device whose capture is constructed but never opens. -/
def badOcv : OcvDevice := ⟨.opens false, fun _ => none⟩

/-- A libcamera stack whose import fails (picamera2 unavailable). -/
def importErrLib : LibDevice := ⟨.importErr, fun _ => .capRaises⟩

/-- A libcamera stack whose configure/start fails after the global was
assigned. -/
def failAfterLib : LibDevice := ⟨.failAfterAssign, fun _ => .capRaises⟩

/-- A libcamera stack that starts and always captures [(1,2,3)]. -/
def okLib : LibDevice := ⟨.startOk, fun _ => .capFrame [(1, 2, 3)]⟩

/-! ### Helper lemmas -/

theorem pyLower_opencv : pyLower "opencv" = "opencv" := by decide

theorem pyLower_libcamera : pyLower "libcamera" = "libcamera" := by decide

theorem init_opencv_cameraSource (d : OcvDevice) (s : ServerState) :
    (init_opencv_camera d s).state.cameraSource = s.cameraSource := by
  cases h : d.openBeh <;> simp [init_opencv_camera, h]

theorem init_libcamera_cameraSource (d : LibDevice) (s : ServerState) :
    (init_libcamera d s).state.cameraSource = s.cameraSource := by
  cases h : d.initBeh <;> simp [init_libcamera, h]

theorem closeCurrent_nextId (s : ServerState) :
    (closeCurrent s).1.nextId = s.nextId := by
  by_cases h1 : pyLower s.cameraSource = "opencv"
  · cases h2 : s.opencv_camera <;> simp [closeCurrent, h1, h2]
  · by_cases h3 : pyLower s.cameraSource = "libcamera"
    · cases h4 : s.libcamera_camera <;> simp [closeCurrent, h1, h3, h4]
    · simp [closeCurrent, h1, h3]

theorem closeCurrent_cameraSource (s : ServerState) :
    (closeCurrent s).1.cameraSource = s.cameraSource := by
  by_cases h1 : pyLower s.cameraSource = "opencv"
  · cases h2 : s.opencv_camera <;> simp [closeCurrent, h1, h2]
  · by_cases h3 : pyLower s.cameraSource = "libcamera"
    · cases h4 : s.libcamera_camera <;> simp [closeCurrent, h1, h3, h4]
    · simp [closeCurrent, h1, h3]

theorem closeCurrent_lib_unchanged (s : ServerState)
    (h : pyLower s.cameraSource ≠ "libcamera") :
    (closeCurrent s).1.libcamera_camera = s.libcamera_camera := by
  by_cases h1 : pyLower s.cameraSource = "opencv"
  · cases h2 : s.opencv_camera <;> simp [closeCurrent, h1, h2]
  · simp [closeCurrent, h1, h]

theorem closeCurrent_ocv_unchanged (s : ServerState)
    (h : pyLower s.cameraSource ≠ "opencv") :
    (closeCurrent s).1.opencv_camera = s.opencv_camera := by
  by_cases h3 : pyLower s.cameraSource = "libcamera"
  · cases h4 : s.libcamera_camera <;> simp [closeCurrent, h, h3, h4]
  · simp [closeCurrent, h, h3]

theorem closeCurrent_release (s : ServerState) (h : OcvHandle)
    (h1 : pyLower s.cameraSource = "opencv") (h2 : s.opencv_camera = some h) :
    closeCurrent s =
      ({ s with opencv_camera := some { h with opened := false } },
        [.ocvRelease h.id]) := by
  unfold closeCurrent
  rw [if_pos h1, h2]

theorem closeCurrent_close (s : ServerState) (h : LibHandle)
    (h1 : pyLower s.cameraSource = "libcamera")
    (h2 : s.libcamera_camera = some h) :
    closeCurrent s =
      ({ s with libcamera_camera := some { h with working := false } },
        [.libClose h.id]) := by
  unfold closeCurrent
  rw [if_neg (by rw [h1]; decide), if_pos h1, h2]

/-! ### Claims -/

/-- C5: For every requested source string that is not one of the two known
kinds, the switch operation returns a structured error and changes no
state: the Active Backend Reference, both backend handles, and the
camera_source label are all unchanged. -/
theorem C5_invalid_source_no_state_change (dO : OcvDevice) (dL : LibDevice)
    (source : String) (s : ServerState)
    (h : ¬(pyLower source = "opencv" ∨ pyLower source = "libcamera")) :
    switch_camera dO dL source s = ⟨s, .invalidSource, []⟩ := by
  unfold switch_camera
  rw [if_neg h]

/-- Witness for C5 at source "foo". -/
theorem C5_invalid_source_no_state_change_witness :
    switch_camera okOcv okLib "foo" ⟨"opencv", none, none, 0⟩ =
      ⟨⟨"opencv", none, none, 0⟩, .invalidSource, []⟩ :=
  C5_invalid_source_no_state_change okOcv okLib "foo" ⟨"opencv", none, none, 0⟩
    (by decide)

/-- C9: For every successful read from the tuned-sensor backend the
returned frame is reordered from the native RGB channel order to the
direct-device BGR order, and a read that yields no data or a zero-sized
frame (or raises) returns no frame as an error rather than a fatal
condition. -/
theorem C9_libcamera_read (dL : LibDevice) (s : ServerState) (k : Nat)
    (h : LibHandle) (hs : s.libcamera_camera = some h) (hw : h.working = true) :
    (∀ f, dL.capture k = .capFrame f → f ≠ [] →
      (get_frame_libcamera dL s k).frame =
        some (f.map fun p => (p.2.2, p.2.1, p.1))) ∧
    (dL.capture k = .capNone → (get_frame_libcamera dL s k).frame = none) ∧
    (dL.capture k = .capRaises → (get_frame_libcamera dL s k).frame = none) ∧
    (dL.capture k = .capFrame [] → (get_frame_libcamera dL s k).frame = none) := by
  refine ⟨?_, ?_, ?_, ?_⟩
  · intro f hc hne
    simp [get_frame_libcamera, hs, hw, hc, hne, rgb2bgr]
  · intro hc
    simp [get_frame_libcamera, hs, hw, hc]
  · intro hc
    simp [get_frame_libcamera, hs, hw, hc]
  · intro hc
    simp [get_frame_libcamera, hs, hw, hc]

/-- Witness for C9: a working tuned-sensor handle capturing [(1,2,3)]
returns [(3,2,1)]. -/
theorem C9_libcamera_read_witness :
    (get_frame_libcamera okLib ⟨"libcamera", none, some ⟨0, true⟩, 1⟩ 0).frame =
      some [(3, 2, 1)] := by
  have h := C9_libcamera_read okLib ⟨"libcamera", none, some ⟨0, true⟩, 1⟩ 0
    ⟨0, true⟩ rfl rfl
  simpa using h.1 [(1, 2, 3)] rfl (by decide)

/-- C2 counterexample: a tuned-sensor open attempt that fails during
configure/start leaves the failed object recorded in the global, the
health check reports the backend as working, and frame retrieval invokes
a capture on the failed handle — contradicting the claim that a failed
handle is never recorded as active and never used for retrieval. -/
theorem C2_counterexample :
    (init_libcamera failAfterLib ⟨"libcamera", none, none, 0⟩).state.libcamera_camera
        = some ⟨0, false⟩ ∧
    (health_check
        (init_libcamera failAfterLib ⟨"libcamera", none, none, 0⟩).state).camera_working
        = true ∧
    (get_frame noReadOcv failAfterLib
        (init_libcamera failAfterLib ⟨"libcamera", none, none, 0⟩).state 0).events
        = [.libCapture 0] ∧
    (get_frame noReadOcv failAfterLib
        (init_libcamera failAfterLib ⟨"libcamera", none, none, 0⟩).state 0).frame
        = none :=
  ⟨rfl, rfl, rfl, rfl⟩

/-- C2 (amended): a failed open may leave the handle recorded in the
global and retrieval may invoke a read on it, but a handle that failed to
open never yields a frame: retrieve_frame on a state whose labelled
backend holds a failed handle returns no frame. -/
theorem C2_failed_handle_never_yields_frame (dO : OcvDevice) (dL : LibDevice)
    (s : ServerState) (k : Nat) :
    (pyLower s.cameraSource ≠ "libcamera" →
      ∀ h, s.opencv_camera = some h → h.opened = false →
        (get_frame dO dL s k).frame = none) ∧
    (pyLower s.cameraSource = "libcamera" →
      ∀ h, s.libcamera_camera = some h → h.working = false →
        (get_frame dO dL s k).frame = none) := by
  constructor
  · intro hlab h hh hop
    simp [get_frame, hlab, get_frame_opencv, hh, hop]
  · intro hlab h hh hw
    simp [get_frame, hlab, get_frame_libcamera, hh, hw]

/-- Witness for C2 (amended): a never-opened OpenCV capture under the
"opencv" label yields no frame. -/
theorem C2_failed_handle_never_yields_frame_witness :
    (get_frame okOcv okLib ⟨"opencv", some ⟨0, false⟩, none, 1⟩ 0).frame = none :=
  (C2_failed_handle_never_yields_frame okOcv okLib
      ⟨"opencv", some ⟨0, false⟩, none, 1⟩ 0).1 (by decide) ⟨0, false⟩ rfl rfl

/-- C6: For every backend whose read always fails, the Stream Generator
never terminates and never raises: for every N, N consecutive failed
iterations yield zero framed chunks, each failed iteration inserting the
fixed backoff delay (the `time.sleep(0.1)` branch) before retrying, with
no retry cap (the iteration is defined for every index). -/
theorem C6_always_failing_read (dO : OcvDevice) (dL : LibDevice)
    (enc : Encoder) (s : ServerState)
    (h : ∀ k, (get_frame dO dL s k).frame = none) :
    ∀ N, (genOuts dO dL enc s N).countP GenOut.isChunk = 0 ∧
      (genOuts dO dL enc s N).length = N ∧
      ∀ o ∈ genOuts dO dL enc s N, o = .backoff := by
  have hstep : ∀ k, genStep dO dL enc s k = .backoff := by
    intro k
    unfold genStep
    rw [h k]
  intro N
  refine ⟨?_, ?_, ?_⟩
  · rw [List.countP_eq_zero]
    intro a ha
    obtain ⟨k, _, rfl⟩ := List.mem_map.mp ha
    rw [hstep k]
    simp [GenOut.isChunk]
  · simp [genOuts]
  · intro o ho
    obtain ⟨k, _, rfl⟩ := List.mem_map.mp ho
    exact hstep k

/-- Witness for C6: with no camera at all, 5 iterations produce 5 backoffs
and zero chunks. -/
theorem C6_always_failing_read_witness :
    (genOuts noReadOcv importErrLib (fun _ => .encFails)
        ⟨"opencv", none, none, 0⟩ 5).countP GenOut.isChunk = 0 ∧
    (genOuts noReadOcv importErrLib (fun _ => .encFails)
        ⟨"opencv", none, none, 0⟩ 5).length = 5 ∧
    ∀ o ∈ genOuts noReadOcv importErrLib (fun _ => .encFails)
        ⟨"opencv", none, none, 0⟩ 5, o = .backoff :=
  C6_always_failing_read noReadOcv importErrLib (fun _ => .encFails)
    ⟨"opencv", none, none, 0⟩ (fun k => rfl) 5

/-- C7: Every Stream Generator iteration in which retrieval and encode
both succeed yields exactly one chunk whose bytes are the literal
`--frame` CRLF, then `Content-Type: image/jpeg` CRLF CRLF, then the
nonempty encoded image bytes, then CRLF; the part header carries no
Content-Length. -/
theorem C7_chunk_framing (dO : OcvDevice) (dL : LibDevice) (enc : Encoder)
    (s : ServerState) (k : Nat) (f : RawFrame) (b : List Nat)
    (h1 : (get_frame dO dL s k).frame = some f)
    (h2 : enc f = .encOk b) (h3 : b ≠ []) :
    genStep dO dL enc s k =
      .chunk (asciiBytes "--frame\r\nContent-Type: image/jpeg\r\n\r\n"
        ++ b ++ asciiBytes "\r\n") ∧
    (asciiBytes "--frame\r\nContent-Type: image/jpeg\r\n\r\n"
        ++ b ++ asciiBytes "\r\n") ≠ [] ∧
    hasByteRun (asciiBytes "Content-Length")
      (asciiBytes "--frame\r\nContent-Type: image/jpeg\r\n\r\n") = false := by
  refine ⟨?_, by simp [asciiBytes], by decide⟩
  simp [genStep, h1, h2, partHeader, crlf]

/-- Witness for C7 at a concrete frame and payload. -/
theorem C7_chunk_framing_witness :
    genStep okOcv importErrLib
        (fun _ => .encOk [9, 9]) ⟨"opencv", some ⟨0, true⟩, none, 1⟩ 0 =
      .chunk (asciiBytes "--frame\r\nContent-Type: image/jpeg\r\n\r\n"
        ++ [9, 9] ++ asciiBytes "\r\n") :=
  (C7_chunk_framing okOcv importErrLib (fun _ => .encOk [9, 9])
    ⟨"opencv", some ⟨0, true⟩, none, 1⟩ 0 [(1, 2, 3)] [9, 9]
    (by decide) rfl (by decide)).1

/-- C10 counterexample: with the label "weird" (not one of the two kinds)
and an opened, frame-producing OpenCV capture, frame retrieval does use
the direct-device backend, but the health check does NOT treat the label
as direct-device: it reports camera_working = false. -/
theorem C10_counterexample :
    (get_frame ⟨.opens true, fun _ => some [(7, 8, 9)]⟩ importErrLib
        ⟨"weird", some ⟨0, true⟩, none, 1⟩ 0).frame = some [(7, 8, 9)] ∧
    (health_check ⟨"weird", some ⟨0, true⟩, none, 1⟩).camera_working = false :=
  ⟨rfl, rfl⟩

/-- C10 (amended): every camera_source label not equal case-insensitively
to "libcamera" sends frame retrieval to the direct-device (opencv)
backend; the health check treats as direct-device only labels equal
case-insensitively to "opencv" and reports any label outside the two
kinds as not working; the switch operation compares the requested source
case-insensitively and stores the accepted kind lowercased. -/
theorem C10_label_dispatch (dO : OcvDevice) (dL : LibDevice)
    (s : ServerState) (k : Nat) (source : String) :
    (pyLower s.cameraSource ≠ "libcamera" →
      get_frame dO dL s k = get_frame_opencv dO s k) ∧
    (pyLower s.cameraSource ≠ "opencv" → pyLower s.cameraSource ≠ "libcamera" →
      (health_check s).camera_working = false) ∧
    ((pyLower source = "opencv" ∨ pyLower source = "libcamera") →
      (switch_camera dO dL source s).state.cameraSource = pyLower source) := by
  refine ⟨?_, ?_, ?_⟩
  · intro hlab
    simp [get_frame, hlab]
  · intro h1 h2
    simp [health_check, h1, h2]
  · intro hv
    unfold switch_camera
    rw [if_pos hv]
    dsimp only
    split
    · rw [init_libcamera_cameraSource]
    · rw [init_opencv_cameraSource]

/-- Witness for C10 (amended) at label "weird" and request "OpenCV". -/
theorem C10_label_dispatch_witness :
    get_frame badOcv okLib ⟨"weird", none, none, 0⟩ 0 =
      get_frame_opencv badOcv ⟨"weird", none, none, 0⟩ 0 ∧
    (health_check ⟨"weird", none, none, 0⟩).camera_working = false ∧
    (switch_camera badOcv okLib "OpenCV" ⟨"weird", none, none, 0⟩).state.cameraSource
      = pyLower "OpenCV" := by
  have h := C10_label_dispatch badOcv okLib ⟨"weird", none, none, 0⟩ 0 "OpenCV"
  exact ⟨h.1 (by decide), h.2.1 (by decide) (by decide),
    h.2.2 (Or.inl (by decide))⟩

/-- C1 counterexample: configured kind tuned-sensor whose open fails
(library unavailable) and whose direct-device fallback open succeeds: the
fallback capture is open and its reads produce frames, yet retrieve_frame
returns no frame — it does not read from the direct-device backend,
because the dispatch label was not rewritten by the fallback. -/
theorem C1_counterexample :
    (startup_event okOcv importErrLib
        ⟨"libcamera", none, none, 0⟩).state.opencv_camera = some ⟨0, true⟩ ∧
    okOcv.read 0 = some [(1, 2, 3)] ∧
    (get_frame okOcv importErrLib
        (startup_event okOcv importErrLib ⟨"libcamera", none, none, 0⟩).state
        0).frame = none :=
  ⟨rfl, rfl, rfl⟩

/-- C1 (amended): retrieve_frame delegates according to the camera_source
label, not to whichever backend is active; when the labelled kind holds no
handle it returns no frame rather than failing (in particular with no
backend at all); after initialize with configured kind tuned-sensor whose
open fails (library unavailable) and whose direct-device fallback open
succeeds, the label still reads tuned-sensor, so retrieve_frame returns
no frame instead of frames from the direct-device backend. -/
theorem C1_retrieve_frame_dispatch (dO : OcvDevice) (dL : LibDevice)
    (s : ServerState) (hL : dL.initBeh = .importErr)
    (hO : dO.openBeh = .opens true) (hsrc : s.cameraSource = "libcamera")
    (hlib : s.libcamera_camera = none) :
    (startup_event dO dL s).state.cameraSource = "libcamera" ∧
    (startup_event dO dL s).state.opencv_camera = some ⟨s.nextId, true⟩ ∧
    (∀ k, (get_frame dO dL (startup_event dO dL s).state k).frame = none) ∧
    (∀ s2 k, s2.opencv_camera = none → s2.libcamera_camera = none →
      (get_frame dO dL s2 k).frame = none) := by
  have hstate : (startup_event dO dL s).state =
      ⟨"libcamera", some ⟨s.nextId, true⟩, none, s.nextId + 1⟩ := by
    unfold startup_event
    rw [hsrc, if_pos pyLower_libcamera]
    simp [init_libcamera, hL, init_opencv_camera, hO, hsrc, hlib]
  refine ⟨?_, ?_, ?_, ?_⟩
  · rw [hstate]
  · rw [hstate]
  · intro k
    rw [hstate]
    unfold get_frame
    dsimp only
    rw [if_pos pyLower_libcamera]
    rfl
  · intro s2 k h1 h2
    unfold get_frame
    split
    · simp [get_frame_libcamera, h2]
    · simp [get_frame_opencv, h1]

/-- Witness for C1 (amended) at the concrete fallback scenario. -/
theorem C1_retrieve_frame_dispatch_witness :
    (startup_event okOcv importErrLib
        ⟨"libcamera", none, none, 0⟩).state.cameraSource = "libcamera" ∧
    (startup_event okOcv importErrLib
        ⟨"libcamera", none, none, 0⟩).state.opencv_camera = some ⟨0, true⟩ ∧
    (∀ k, (get_frame okOcv importErrLib
      (startup_event okOcv importErrLib ⟨"libcamera", none, none, 0⟩).state
        k).frame = none) ∧
    (∀ s2 k, s2.opencv_camera = none → s2.libcamera_camera = none →
      (get_frame okOcv importErrLib s2 k).frame = none) :=
  C1_retrieve_frame_dispatch okOcv importErrLib ⟨"libcamera", none, none, 0⟩
    rfl rfl rfl rfl

/-- C4 counterexample: from Active(libcamera), shutdown closes the object
but does not clear the Active Backend Reference: the global still holds
the (closed) object and the health check still reports camera_working =
true — the state is not the Uninitialized / unhealthy one the claim
describes. -/
theorem C4_counterexample :
    (shutdown_event
        ⟨"libcamera", none, some ⟨0, true⟩, 1⟩).state.libcamera_camera
      = some ⟨0, false⟩ ∧
    (health_check (shutdown_event
        ⟨"libcamera", none, some ⟨0, true⟩, 1⟩).state).camera_working = true :=
  ⟨rfl, rfl⟩

/-- C4 (amended): shutdown is safe from the Uninitialized state (a strict
no-op) and safe to call twice in a row (the second call leaves the state
unchanged); it closes both handles, after which no frame can be retrieved
from any backend; but it does not clear the handle globals — under a
direct-device label the health check then reports not-working, while
under a tuned-sensor label it still reports the closed object as
working. -/
theorem C4_shutdown_safe (s : ServerState) :
    (s.opencv_camera = none → s.libcamera_camera = none →
      shutdown_event s = ⟨s, []⟩) ∧
    (shutdown_event (shutdown_event s).state).state = (shutdown_event s).state ∧
    (∀ dO dL k, (get_frame dO dL (shutdown_event s).state k).frame = none) ∧
    (pyLower s.cameraSource = "opencv" →
      (health_check (shutdown_event s).state).camera_working = false) := by
  obtain ⟨src, ocv, lib, n⟩ := s
  refine ⟨?_, ?_, ?_, ?_⟩
  · intro h1 h2
    dsimp only at h1 h2
    subst h1
    subst h2
    rfl
  · cases ocv <;> cases lib <;> rfl
  · intro dO dL k
    unfold get_frame
    split
    · cases lib <;> simp [shutdown_event, get_frame_libcamera]
    · cases ocv <;> simp [shutdown_event, get_frame_opencv]
  · intro hsrc
    cases ocv <;> simp [shutdown_event, health_check, hsrc]

/-- Witness for C4 (amended) from the Active(opencv) state. -/
theorem C4_shutdown_safe_witness :
    (shutdown_event (shutdown_event
        ⟨"opencv", some ⟨0, true⟩, none, 1⟩).state).state
      = (shutdown_event ⟨"opencv", some ⟨0, true⟩, none, 1⟩).state ∧
    (∀ k, (get_frame okOcv okLib
        (shutdown_event ⟨"opencv", some ⟨0, true⟩, none, 1⟩).state k).frame
        = none) ∧
    (health_check (shutdown_event
        ⟨"opencv", some ⟨0, true⟩, none, 1⟩).state).camera_working = false := by
  have h := C4_shutdown_safe ⟨"opencv", some ⟨0, true⟩, none, 1⟩
  exact ⟨h.2.1, fun k => h.2.2.1 okOcv okLib k, h.2.2.2 (by decide)⟩

theorem switch_opencv_full (dO : OcvDevice) (dL : LibDevice) (source : String)
    (s : ServerState) (ok : Bool) (hoc : pyLower source = "opencv")
    (hO : dO.openBeh = .opens ok) :
    switch_camera dO dL source s =
      ⟨⟨"opencv", some ⟨s.nextId, ok⟩, (closeCurrent s).1.libcamera_camera,
          s.nextId + 1⟩,
        .switched ok "opencv",
        (closeCurrent s).2 ++ [.ocvOpen s.nextId ok]⟩ := by
  unfold switch_camera
  rw [if_pos (Or.inl hoc), hoc]
  dsimp only
  rw [if_neg (by decide)]
  simp [init_opencv_camera, hO, closeCurrent_nextId]

theorem switch_lib_ok_full (dO : OcvDevice) (dL : LibDevice) (source : String)
    (s : ServerState) (hlc : pyLower source = "libcamera")
    (hL : dL.initBeh = .startOk) :
    switch_camera dO dL source s =
      ⟨⟨"libcamera", (closeCurrent s).1.opencv_camera, some ⟨s.nextId, true⟩,
          s.nextId + 1⟩,
        .switched true "libcamera",
        (closeCurrent s).2 ++ [.libOpen s.nextId true]⟩ := by
  unfold switch_camera
  rw [if_pos (Or.inr hlc), hlc]
  dsimp only
  rw [if_pos rfl]
  simp [init_libcamera, hL, closeCurrent_nextId]

theorem switch_lib_failAfter_full (dO : OcvDevice) (dL : LibDevice)
    (source : String) (s : ServerState) (hlc : pyLower source = "libcamera")
    (hL : dL.initBeh = .failAfterAssign) :
    switch_camera dO dL source s =
      ⟨⟨"libcamera", (closeCurrent s).1.opencv_camera, some ⟨s.nextId, false⟩,
          s.nextId + 1⟩,
        .switched false "libcamera",
        (closeCurrent s).2 ++ [.libOpen s.nextId false]⟩ := by
  unfold switch_camera
  rw [if_pos (Or.inr hlc), hlc]
  dsimp only
  rw [if_pos rfl]
  simp [init_libcamera, hL, closeCurrent_nextId]

/-- C3 counterexample: in the fallback-reachable state where the label is
"libcamera" but the active open handle is the direct-device capture
(id 0), switch("opencv") does NOT close the currently active handle — no
release of capture 0 is ever issued; the open capture is silently
overwritten by the fresh capture (id 1). This contradicts "closes the
currently active handle if any, regardless of which kind it is". -/
theorem C3_counterexample :
    (switch_camera okOcv importErrLib "opencv"
        ⟨"libcamera", some ⟨0, true⟩, none, 1⟩).events = [.ocvOpen 1 true] ∧
    Event.ocvRelease 0 ∉ (switch_camera okOcv importErrLib "opencv"
        ⟨"libcamera", some ⟨0, true⟩, none, 1⟩).events ∧
    (switch_camera okOcv importErrLib "opencv"
        ⟨"libcamera", some ⟨0, true⟩, none, 1⟩).state.opencv_camera
      = some ⟨1, true⟩ :=
  ⟨rfl, by decide, rfl⟩

/-- C3 (amended): for every starting state and valid requested kind,
switch closes the handle of the currently LABELLED kind if present (not
necessarily the active handle), sets the label to the lowercased request,
then attempts open on the requested kind; on open success the requested
kind's working handle is recorded; on open failure there is no revert to
the prior backend, but the reference is not necessarily empty: a
tuned-sensor configure/start failure records a failed handle (from which
no frame can ever be retrieved). -/
theorem C3_switch_close_then_open (dO : OcvDevice) (dL : LibDevice)
    (source : String) (s : ServerState)
    (hv : pyLower source = "opencv" ∨ pyLower source = "libcamera") :
    (switch_camera dO dL source s).state.cameraSource = pyLower source ∧
    (∀ h, pyLower s.cameraSource = "opencv" → s.opencv_camera = some h →
      Event.ocvRelease h.id ∈ (switch_camera dO dL source s).events) ∧
    (∀ h, pyLower s.cameraSource = "libcamera" → s.libcamera_camera = some h →
      Event.libClose h.id ∈ (switch_camera dO dL source s).events) ∧
    (∀ ok, pyLower source = "opencv" → dO.openBeh = .opens ok →
      (switch_camera dO dL source s).state.opencv_camera = some ⟨s.nextId, ok⟩ ∧
      (switch_camera dO dL source s).resp = .switched ok "opencv") ∧
    (pyLower source = "libcamera" → dL.initBeh = .startOk →
      (switch_camera dO dL source s).state.libcamera_camera
          = some ⟨s.nextId, true⟩ ∧
      (switch_camera dO dL source s).resp = .switched true "libcamera") ∧
    (pyLower source = "libcamera" → dL.initBeh = .failAfterAssign →
      (switch_camera dO dL source s).state.libcamera_camera
          = some ⟨s.nextId, false⟩ ∧
      (switch_camera dO dL source s).resp = .switched false "libcamera" ∧
      ∀ k, (get_frame dO dL (switch_camera dO dL source s).state k).frame
          = none) := by
  refine ⟨?_, ?_, ?_, ?_, ?_, ?_⟩
  · unfold switch_camera
    rw [if_pos hv]
    dsimp only
    split
    · rw [init_libcamera_cameraSource]
    · rw [init_opencv_cameraSource]
  · intro h h1 h2
    unfold switch_camera
    rw [if_pos hv]
    dsimp only
    rw [closeCurrent_release s h h1 h2]
    simp
  · intro h h1 h2
    unfold switch_camera
    rw [if_pos hv]
    dsimp only
    rw [closeCurrent_close s h h1 h2]
    simp
  · intro ok hoc hO
    rw [switch_opencv_full dO dL source s ok hoc hO]
    exact ⟨rfl, rfl⟩
  · intro hlc hL
    rw [switch_lib_ok_full dO dL source s hlc hL]
    exact ⟨rfl, rfl⟩
  · intro hlc hL
    rw [switch_lib_failAfter_full dO dL source s hlc hL]
    refine ⟨rfl, rfl, ?_⟩
    intro k
    unfold get_frame
    dsimp only
    rw [if_pos pyLower_libcamera]
    rfl

/-- Witness for C3 (amended): switching from Active(opencv) to
"libcamera" with a successful start releases the OpenCV capture, records
the working libcamera handle, and reports success. -/
theorem C3_switch_close_then_open_witness :
    Event.ocvRelease 0 ∈ (switch_camera okOcv okLib "libcamera"
        ⟨"opencv", some ⟨0, true⟩, none, 1⟩).events ∧
    (switch_camera okOcv okLib "libcamera"
        ⟨"opencv", some ⟨0, true⟩, none, 1⟩).state.libcamera_camera
      = some ⟨1, true⟩ ∧
    (switch_camera okOcv okLib "libcamera"
        ⟨"opencv", some ⟨0, true⟩, none, 1⟩).resp
      = .switched true "libcamera" := by
  have h := C3_switch_close_then_open okOcv okLib "libcamera"
    ⟨"opencv", some ⟨0, true⟩, none, 1⟩ (Or.inr (by decide))
  exact ⟨h.2.1 ⟨0, true⟩ (by decide) rfl,
    (h.2.2.2.2.1 (by decide) rfl).1, (h.2.2.2.2.1 (by decide) rfl).2⟩

/-- C8: calling switch twice in a row with the same kind, with both opens
succeeding, is idempotent in observable state: the label and the
per-backend working status are the same after the second call as after
the first, the responses are identical, and both report success with the
same camera_source. -/
theorem C8_switch_twice_idempotent (dO : OcvDevice) (dL : LibDevice)
    (source : String) (s : ServerState)
    (hv : pyLower source = "opencv" ∨ pyLower source = "libcamera")
    (hO : pyLower source = "opencv" → dO.openBeh = .opens true)
    (hL : pyLower source = "libcamera" → dL.initBeh = .startOk) :
    obs (switch_camera dO dL source
        (switch_camera dO dL source s).state).state
      = obs (switch_camera dO dL source s).state ∧
    (switch_camera dO dL source (switch_camera dO dL source s).state).resp
      = (switch_camera dO dL source s).resp ∧
    (switch_camera dO dL source s).resp = .switched true (pyLower source) := by
  rcases hv with hoc | hlc
  · rw [switch_opencv_full dO dL source s true hoc (hO hoc)]
    dsimp only
    rw [switch_opencv_full dO dL source
      ⟨"opencv", some ⟨s.nextId, true⟩, (closeCurrent s).1.libcamera_camera,
        s.nextId + 1⟩ true hoc (hO hoc)]
    dsimp only
    have hcc : (closeCurrent (⟨"opencv", some ⟨s.nextId, true⟩,
        (closeCurrent s).1.libcamera_camera, s.nextId + 1⟩ :
          ServerState)).1.libcamera_camera
        = (closeCurrent s).1.libcamera_camera :=
      closeCurrent_lib_unchanged _
        (by show pyLower "opencv" ≠ "libcamera"; decide)
    refine ⟨?_, rfl, by rw [hoc]⟩
    simp [obs, hcc]
  · rw [switch_lib_ok_full dO dL source s hlc (hL hlc)]
    dsimp only
    rw [switch_lib_ok_full dO dL source
      ⟨"libcamera", (closeCurrent s).1.opencv_camera, some ⟨s.nextId, true⟩,
        s.nextId + 1⟩ hlc (hL hlc)]
    dsimp only
    have hcc : (closeCurrent (⟨"libcamera", (closeCurrent s).1.opencv_camera,
        some ⟨s.nextId, true⟩, s.nextId + 1⟩ :
          ServerState)).1.opencv_camera
        = (closeCurrent s).1.opencv_camera :=
      closeCurrent_ocv_unchanged _
        (by show pyLower "libcamera" ≠ "opencv"; decide)
    refine ⟨?_, rfl, by rw [hlc]⟩
    simp [obs, hcc]

/-- Witness for C8 at a concrete double switch to "opencv". -/
theorem C8_switch_twice_idempotent_witness :
    obs (switch_camera okOcv okLib "opencv"
        (switch_camera okOcv okLib "opencv"
          ⟨"libcamera", none, some ⟨0, true⟩, 1⟩).state).state
      = obs (switch_camera okOcv okLib "opencv"
          ⟨"libcamera", none, some ⟨0, true⟩, 1⟩).state ∧
    (switch_camera okOcv okLib "opencv"
        (switch_camera okOcv okLib "opencv"
          ⟨"libcamera", none, some ⟨0, true⟩, 1⟩).state).resp
      = (switch_camera okOcv okLib "opencv"
          ⟨"libcamera", none, some ⟨0, true⟩, 1⟩).resp ∧
    (switch_camera okOcv okLib "opencv"
        ⟨"libcamera", none, some ⟨0, true⟩, 1⟩).resp
      = .switched true (pyLower "opencv") :=
  C8_switch_twice_idempotent okOcv okLib "opencv"
    ⟨"libcamera", none, some ⟨0, true⟩, 1⟩ (Or.inl (by decide))
    (fun _ => rfl) (fun _ => rfl)

end CameraServer
